import Mathlib

/-!
# Knowledge datastore: default selection, generic transformer, PDF default loader

A shallow embedding of the Go package tree `knowledge/pkg/datastore`:

* `textsplitter/defaults.go`      : `DefaultTextSplitter`
* `transformers/defaults.go`      : `DefaultDocumentTransformers`
* `transformers/generic.go`       : `GenericTransformer.Transform`
* `documentloader/pdf/defaults`   : `DefaultPDFReaderFunc`
* `embeddings/types/provider.go`  : interface `EmbeddingModelProvider`
* `store/store.go`                : interface `Store`

Go values are modelled as follows.  A slice is `Slice α`, which keeps the nil
slice apart from an allocated one.  A pointer `*T` is `Option T` (`none` is the
nil pointer).  A Go `error` is `Option Error` (`none` is the nil error).  A call
that can panic inside the code under study returns an `Outcome`.
-/

namespace Knowledge

/-! ## Go runtime model -/

/-- Result of running a piece of Go code that may panic. -/
inductive Outcome (α : Type) where
  | returned (a : α)
  | panicked (msg : String)
  deriving DecidableEq, Repr

/-- Sequencing of Go statements: a panic aborts what follows. -/
def Outcome.bind {α β : Type} (x : Outcome α) (f : α → Outcome β) : Outcome β :=
  match x with
  | .returned a => f a
  | .panicked m => .panicked m

instance : Monad Outcome where
  pure := Outcome.returned
  bind := Outcome.bind

/-- Dereference `*p`: a nil pointer panics. -/
def deref {α : Type} (p : Option α) : Outcome α :=
  match p with
  | some a => .returned a
  | none => .panicked "invalid memory address or nil pointer dereference"

/-- A Go slice: the nil slice, or an allocated slice with its elements. -/
inductive Slice (α : Type) where
  | nil
  | mk (elems : List α)
  deriving DecidableEq, Repr

/-- The elements of a slice, in order (`nil` has none). -/
def Slice.toList {α : Type} : Slice α → List α
  | .nil => []
  | .mk xs => xs

/-- Go `len(s)`. -/
def Slice.len {α : Type} (s : Slice α) : Nat := s.toList.length

/-- Go `s == nil`. -/
def Slice.isNil {α : Type} : Slice α → Bool
  | .nil => true
  | .mk _ => false

/-- Go `append(s, x)` with one appended element: the result is always allocated. -/
def Slice.append {α : Type} (s : Slice α) (x : α) : Slice α :=
  .mk (s.toList ++ [x])

/-- Modelled from the spec: the error taxonomy of the pipeline (configuration,
transformation, embedding and store errors, the last with its not-found and
invalid-input cases); the concrete Go error values are not among the sources. -/
inductive Error where
  | configuration (msg : String)
  | transformation (msg : String)
  | embedding (msg : String)
  | notFound (msg : String)
  | inputValidation (msg : String)
  | backend (msg : String)
  | other (msg : String)
  deriving DecidableEq, Repr

/-- Modelled from the spec: a cancellable execution context (`context.Context`). -/
structure Context where
  cancelled : Bool
  deriving DecidableEq, Repr

/-- Modelled from the spec: `vs.Document`, a unit of content with an identifier
and a metadata mapping; its declaration is not among the sources. -/
structure Document where
  ID : String
  Content : String
  Metadata : List (String × String)
  deriving DecidableEq, Repr

/-! ## textsplitter/defaults.go -/

/-- Modelled from the spec: the langchaingo splitters built by
`NewLcgoTextSplitter` (generic, works on any text) and `NewLcgoMarkdownSplitter`
(markdown-aware), each from an options value; the constructors are not among
the sources, so a splitter is represented by how it was built. -/
inductive LcgoSplitter (Opts : Type) where
  | NewLcgoTextSplitter (opts : Opts)
  | NewLcgoMarkdownSplitter (opts : Opts)
  deriving DecidableEq, Repr

/-- Modelled from the spec: `types.TextSplitter` as produced by `FromLangchain`,
a wrapped langchaingo splitter together with the name it is registered under. -/
structure TextSplitter (Opts : Type) where
  splitter : LcgoSplitter Opts
  Name : String
  deriving DecidableEq, Repr

/-- Modelled from the spec: `FromLangchain(splitter, name)` wraps a langchaingo
splitter under a name; its body is not among the sources. -/
def FromLangchain {Opts : Type} (splitter : LcgoSplitter Opts) (name : String) :
    TextSplitter Opts :=
  { splitter := splitter, Name := name }

/-- Go `z.Pointer(v)`: a fresh non-nil pointer to `v`. -/
def zPointer {α : Type} (v : α) : Option α := some v

/-- The function `DefaultTextSplitter(filetype, textSplitterOpts)`.  The options
type `TextSplitterOpts` and the value of `NewTextSplitterOpts()` are declared
outside the sources and are taken as parameters. -/
def DefaultTextSplitter {Opts : Type} (NewTextSplitterOpts : Opts)
    (filetype : String) (textSplitterOpts : Option Opts) : Outcome (TextSplitter Opts) :=
  let textSplitterOpts :=
    if textSplitterOpts.isNone then zPointer NewTextSplitterOpts else textSplitterOpts
  do
    let o1 ← deref textSplitterOpts
    let genericTextSplitter := FromLangchain (LcgoSplitter.NewLcgoTextSplitter o1) "lcgo_text"
    let o2 ← deref textSplitterOpts
    let markdownTextSplitter :=
      FromLangchain (LcgoSplitter.NewLcgoMarkdownSplitter o2) "lcgo_markdown"
    if filetype = ".md" ∨ filetype = "text/markdown" then
      pure markdownTextSplitter
    else
      pure genericTextSplitter

/-! ## transformers/generic.go and transformers/defaults.go -/

/-- The struct `GenericTransformer`: one field holding a func value, which in Go
may be nil (`none`).  The wrapped function is a pure function of its arguments
returning the Go pair `(docs, err)`. -/
structure GenericTransformer where
  TransformationFunc : Option (Context → Slice Document → Slice Document × Option Error)

/-- The method `(g *GenericTransformer) Transform(ctx, docs)`: reads the field
through the receiver pointer and calls it. -/
def GenericTransformer.Transform (g : Option GenericTransformer) (ctx : Context)
    (docs : Slice Document) : Outcome (Slice Document × Option Error) := do
  let gv ← deref g
  match gv.TransformationFunc with
  | none => .panicked "invalid memory address or nil pointer dereference"
  | some f => pure (f ctx docs)

/-- The interface `types.DocumentTransformer`, by the implementations the
sources name: the markdown filter `FilterMarkdownDocsNoContent` (declared
outside the sources, a struct without fields) and `GenericTransformer`. -/
inductive DocumentTransformer where
  | FilterMarkdownDocsNoContent
  | generic (g : GenericTransformer)

/-- The function `DefaultDocumentTransformers(filetype)`.  The named result
`transformers` starts as the nil slice; the markdown case appends to it and
returns, every other case falls through to the bare `return`. -/
def DefaultDocumentTransformers (filetype : String) : Slice DocumentTransformer :=
  let transformers : Slice DocumentTransformer := Slice.nil
  if filetype = ".md" ∨ filetype = "text/markdown" then
    let transformers := transformers.append DocumentTransformer.FilterMarkdownDocsNoContent
    transformers
  else
    transformers

/-! ## documentloader/pdf/defaults/defaults.go -/

/-- Calls that `DefaultPDFReaderFunc` makes to code outside itself. -/
inductive Call where
  | slogDebug (msg : String)
  | NewDefaultPDF
  | Load
  deriving DecidableEq, Repr

/-- The func value stored in the variable `DefaultPDFReaderFunc`.  The
constructor `gopdf.NewDefaultPDF` and the method `Load` live outside the sources
and are taken as parameters, with `PDF` the type of the values the constructor
hands back; the result is the Go pair `(docs, err)` together with the calls made,
in order. -/
def DefaultPDFReaderFunc {Reader PDF : Type}
    (NewDefaultPDF : Reader → PDF × Option Error)
    (Load : PDF → Context → Slice Document × Option Error)
    (ctx : Context) (reader : Reader) : (Slice Document × Option Error) × List Call :=
  let calls := [Call.slogDebug "Default PDF reader is GoPDF"]
  let (r, err) := NewDefaultPDF reader
  let calls := calls ++ [Call.NewDefaultPDF]
  match err with
  | some e => ((Slice.nil, some e), calls)
  | none => (Load r ctx, calls ++ [Call.Load])

/-! ## embeddings/types/provider.go

The sources declare the interface `EmbeddingModelProvider` only.  The provider
below follows sections 3 and 4.4 of the specification. -/

/-- Modelled from the spec: `vs.EmbeddingFunc`, the embedding function a
provider hands out, identified here by the model it embeds with. -/
structure EmbeddingFunc where
  model : String
  deriving DecidableEq, Repr

/-- Modelled from the spec: the opaque configuration object of a provider, as
its settings (key and value) and the keys that are required. -/
structure ProviderConfig where
  settings : List (String × String)
  required : List String
  deriving DecidableEq, Repr

/-- Modelled from the spec: settings are valid when every required key is
present with a non-empty value. -/
def ProviderConfig.valid (c : ProviderConfig) : Bool :=
  c.required.all fun k => c.settings.any fun kv => kv.1 == k && kv.2 != ""

/-- Modelled from the spec: an implementation of `EmbeddingModelProvider`, which
the sources declare only as an interface: provider name, active model name,
configuration object, whether `Configure` has succeeded, and the cached
embedding function. -/
structure Provider where
  name : String
  model : String
  config : ProviderConfig
  configured : Bool
  cached : Option EmbeddingFunc
  deriving DecidableEq, Repr

/-- Modelled from the spec: a freshly constructed provider, on which `Configure`
has not run. -/
def Provider.new (name model : String) (config : ProviderConfig) : Provider :=
  { name := name, model := model, config := config, configured := false, cached := none }

/-- Modelled from the spec: `Name()`. -/
def Provider.Name (p : Provider) : String := p.name

/-- Modelled from the spec: `Config()`. -/
def Provider.Config (p : Provider) : ProviderConfig := p.config

/-- Modelled from the spec: `EmbeddingModelName()`. -/
def Provider.EmbeddingModelName (p : Provider) : String := p.model

/-- Modelled from the spec: `Configure()` validates and applies the settings and
fails with a configuration error if required settings are missing or invalid. -/
def Provider.Configure (p : Provider) : Provider × Option Error :=
  if p.config.valid then
    ({ p with configured := true, cached := none }, none)
  else
    (p, some (Error.configuration "required settings are missing or invalid"))

/-- Modelled from the spec: `UseEmbeddingModel(model)` switches the active model
and invalidates the cached embedding function. -/
def Provider.UseEmbeddingModel (p : Provider) (model : String) : Provider :=
  { p with model := model, cached := none }

/-- Modelled from the spec: `EmbeddingFunc()` returns the embedding function of
the active model, or fails if the provider has not been successfully
configured.  The result is the Go pair `(fn, err)`. -/
def Provider.EmbeddingFunc (p : Provider) : Provider × (Option EmbeddingFunc × Option Error) :=
  if p.configured then
    match p.cached with
    | some fn => (p, (some fn, none))
    | none =>
      let fn : Knowledge.EmbeddingFunc := { model := p.model }
      ({ p with cached := some fn }, (some fn, none))
  else
    (p, (none, some (Error.configuration "provider is not configured")))

/-- Modelled from the spec: what a caller can do with a provider; `setConfig` is
a configuration change made through the object `Config()` hands out. -/
inductive ProviderOp where
  | Configure
  | UseEmbeddingModel (model : String)
  | EmbeddingFunc
  | setConfig (config : ProviderConfig)
  deriving DecidableEq, Repr

/-- The provider after one operation. -/
def Provider.step (p : Provider) : ProviderOp → Provider
  | .Configure => p.Configure.1
  | .UseEmbeddingModel m => p.UseEmbeddingModel m
  | .EmbeddingFunc => p.EmbeddingFunc.1
  | .setConfig c => { p with config := c }

/-- Whether the operation, run on `p`, is a `Configure()` that succeeds. -/
def Provider.configureSucceeds (p : Provider) : ProviderOp → Bool
  | .Configure => p.Configure.2.isNone
  | _ => false

/-- The provider after a sequence of operations. -/
def Provider.run (p : Provider) : List ProviderOp → Provider
  | [] => p
  | op :: ops => (p.step op).run ops

/-- Whether no `Configure()` succeeds while the operations run from `p`. -/
def Provider.noSuccessfulConfigure (p : Provider) : List ProviderOp → Bool
  | [] => true
  | op :: ops => !p.configureSucceeds op && (p.step op).noSuccessfulConfigure ops

/-! ## store/store.go

The sources declare the interface `Store` only.  The facade below follows
section 4.5 of the specification. -/

/-- Modelled from the spec: `vs.WhereDocument`, one predicate on document
content; it is passed through to the backend unmodified. -/
structure WhereDocument where
  Operator : String
  Value : String
  deriving DecidableEq, Repr

/-- Modelled from the spec: the vector database behind a store: the collections
it holds and its own search, which returns the documents of a collection that
match the filters, ranked by similarity to the query. -/
structure Backend where
  collections : List String
  search : String → String → List (String × String) → List WhereDocument → List Document

/-- Calls a store makes to its backend. -/
inductive BackendCall where
  | hasCollection (collection : String)
  | search (collection : String) (query : String)
  deriving DecidableEq, Repr

/-- Modelled from the spec: `SimilaritySearch(query, k, collection, where,
whereDocument)` of an implementation of `Store`, which the sources declare only
as an interface: `k <= 0` is an input error, a missing collection fails, and
otherwise up to `k` ranked documents come back.  The result is the Go pair
`(docs, err)` together with the backend calls made, in order. -/
def Store.SimilaritySearch (b : Backend) (_ctx : Context) (query : String)
    (numDocuments : Int) (collection : String) (whereFilter : List (String × String))
    (whereDocument : List WhereDocument) :
    (Slice Document × Option Error) × List BackendCall :=
  if numDocuments ≤ 0 then
    ((Slice.nil, some (Error.inputValidation "numDocuments must be positive")), [])
  else if !b.collections.contains collection then
    ((Slice.nil, some (Error.notFound collection)), [BackendCall.hasCollection collection])
  else
    let ranked := b.search collection query whereFilter whereDocument
    ((Slice.mk (ranked.take numDocuments.toNat), none),
      [BackendCall.hasCollection collection, BackendCall.search collection query])

/-! ## Sample collaborators

Concrete stand-ins for the code taken as parameters, used to run the
definitions above on explicit inputs. -/

/-- A sample `gopdf.NewDefaultPDF`: the reader `true` is unreadable, the reader
`false` opens as the PDF value `7`. -/
def sampleNewDefaultPDF (reader : Bool) : Nat × Option Error :=
  if reader then (0, some (Error.other "malformed PDF")) else (7, none)

/-- A sample `Load`: one document per PDF value, no error. -/
def sampleLoad (r : Nat) (_ctx : Context) : Slice Document × Option Error :=
  (Slice.mk [{ ID := toString r, Content := "page", Metadata := [] }], none)

/-- A sample backend with the single collection "kb" and two documents. -/
def sampleBackend : Backend :=
  { collections := ["kb"]
    search := fun _ _ _ _ =>
      [{ ID := "a", Content := "alpha", Metadata := [] },
       { ID := "b", Content := "beta", Metadata := [] }] }

/-- A sample provider configuration whose required key is missing. -/
def sampleBadConfig : ProviderConfig :=
  { settings := [("model", "m")], required := ["apiKey"] }

/-! ## Helper lemmas -/

/-- The options a langchaingo splitter was built from. -/
def LcgoSplitter.opts {Opts : Type} : LcgoSplitter Opts → Opts
  | .NewLcgoTextSplitter o => o
  | .NewLcgoMarkdownSplitter o => o

/-- The options `DefaultTextSplitter` works with: `*opts`, or the defaults for nil. -/
def effectiveOpts {Opts : Type} (NewTextSplitterOpts : Opts) (opts : Option Opts) : Opts :=
  match opts with
  | some o => o
  | none => NewTextSplitterOpts

theorem DefaultTextSplitter_eq {Opts : Type} (d : Opts) (ft : String) (opts : Option Opts) :
    DefaultTextSplitter d ft opts =
      if ft = ".md" ∨ ft = "text/markdown" then
        Outcome.returned
          (FromLangchain (LcgoSplitter.NewLcgoMarkdownSplitter (effectiveOpts d opts))
            "lcgo_markdown")
      else
        Outcome.returned
          (FromLangchain (LcgoSplitter.NewLcgoTextSplitter (effectiveOpts d opts)) "lcgo_text") := by
  cases opts <;> rfl

theorem Provider.step_configured (p : Provider) (op : ProviderOp)
    (hp : p.configured = false) (hop : p.configureSucceeds op = false) :
    (p.step op).configured = false := by
  cases op with
  | Configure =>
    by_cases hv : p.config.valid = true
    · simp [Provider.configureSucceeds, Provider.Configure, hv] at hop
    · simp [Provider.step, Provider.Configure, hv, hp]
  | UseEmbeddingModel m => simpa [Provider.step, Provider.UseEmbeddingModel] using hp
  | EmbeddingFunc => simp [Provider.step, Provider.EmbeddingFunc, hp]
  | setConfig c => simpa [Provider.step] using hp

theorem Provider.run_configured (ops : List ProviderOp) :
    ∀ p : Provider, p.configured = false → p.noSuccessfulConfigure ops = true →
      (p.run ops).configured = false := by
  induction ops with
  | nil => intro p hp _; simpa [Provider.run] using hp
  | cons op ops ih =>
    intro p hp hno
    simp only [Provider.noSuccessfulConfigure, Bool.and_eq_true, Bool.not_eq_true'] at hno
    exact ih (p.step op) (Provider.step_configured p op hp hno.1) hno.2

/-! ## Claims -/

/-- C1: `DefaultTextSplitter(ft, opts)`, for nil and non-nil `opts` alike, returns
the markdown-aware splitter registered under the name "lcgo_markdown" when `ft`
is ".md" or "text/markdown", and the generic splitter registered under the name
"lcgo_text" for every other `ft`. -/
theorem DefaultTextSplitter_selects {Opts : Type} (d : Opts) (ft : String)
    (opts : Option Opts) :
    ((ft = ".md" ∨ ft = "text/markdown") →
      DefaultTextSplitter d ft opts =
        Outcome.returned
          (FromLangchain (LcgoSplitter.NewLcgoMarkdownSplitter (effectiveOpts d opts))
            "lcgo_markdown")) ∧
    (¬ (ft = ".md" ∨ ft = "text/markdown") →
      DefaultTextSplitter d ft opts =
        Outcome.returned
          (FromLangchain (LcgoSplitter.NewLcgoTextSplitter (effectiveOpts d opts))
            "lcgo_text")) := by
  rw [DefaultTextSplitter_eq]
  constructor
  · intro h; rw [if_pos h]
  · intro h; rw [if_neg h]

/-- Witness of C1: ".md" and "text/markdown" get the markdown splitter; the empty
string and an unknown MIME type get the generic one. -/
theorem DefaultTextSplitter_selects_witness :
    DefaultTextSplitter (1024 : Nat) ".md" none =
        Outcome.returned (FromLangchain (LcgoSplitter.NewLcgoMarkdownSplitter 1024) "lcgo_markdown") ∧
    DefaultTextSplitter (1024 : Nat) "text/markdown" (some 256) =
        Outcome.returned (FromLangchain (LcgoSplitter.NewLcgoMarkdownSplitter 256) "lcgo_markdown") ∧
    DefaultTextSplitter (1024 : Nat) "" none =
        Outcome.returned (FromLangchain (LcgoSplitter.NewLcgoTextSplitter 1024) "lcgo_text") ∧
    DefaultTextSplitter (1024 : Nat) "application/x-unknown" (some 256) =
        Outcome.returned (FromLangchain (LcgoSplitter.NewLcgoTextSplitter 256) "lcgo_text") :=
  ⟨(DefaultTextSplitter_selects 1024 ".md" none).1 (by decide),
   (DefaultTextSplitter_selects 1024 "text/markdown" (some 256)).1 (by decide),
   (DefaultTextSplitter_selects 1024 "" none).2 (by decide),
   (DefaultTextSplitter_selects 1024 "application/x-unknown" (some 256)).2 (by decide)⟩

/-- C2: `DefaultDocumentTransformers(ft)` holds exactly one element, a
`FilterMarkdownDocsNoContent` transformer, when `ft` is ".md" or "text/markdown",
and has length zero for every other `ft`. -/
theorem DefaultDocumentTransformers_contents (ft : String) :
    ((ft = ".md" ∨ ft = "text/markdown") →
      (DefaultDocumentTransformers ft).toList =
        [DocumentTransformer.FilterMarkdownDocsNoContent]) ∧
    (¬ (ft = ".md" ∨ ft = "text/markdown") → (DefaultDocumentTransformers ft).len = 0) := by
  constructor
  · intro h
    simp [DefaultDocumentTransformers, h, Slice.append, Slice.toList]
  · intro h
    simp [DefaultDocumentTransformers, h, Slice.len, Slice.toList]

/-- Witness of C2 at ".md" and at ".txt". -/
theorem DefaultDocumentTransformers_contents_witness :
    (DefaultDocumentTransformers ".md").toList =
        [DocumentTransformer.FilterMarkdownDocsNoContent] ∧
    (DefaultDocumentTransformers ".txt").len = 0 :=
  ⟨(DefaultDocumentTransformers_contents ".md").1 (by decide),
   (DefaultDocumentTransformers_contents ".txt").2 (by decide)⟩

/-- C3, refuted as stated: for the empty file type the function returns the nil
slice, not an allocated empty one. -/
theorem DefaultDocumentTransformers_nil_counterexample :
    ¬ ((DefaultDocumentTransformers "").isNil = false) := by
  simp [DefaultDocumentTransformers, Slice.isNil]

/-- C3 as amended: `DefaultDocumentTransformers(ft)` is a non-nil slice of length
one when `ft` is ".md" or "text/markdown", and is the nil slice, of length zero,
for every other `ft`, the empty string included. -/
theorem DefaultDocumentTransformers_nil_iff (ft : String) :
    ((ft = ".md" ∨ ft = "text/markdown") →
      (DefaultDocumentTransformers ft).isNil = false ∧
        (DefaultDocumentTransformers ft).len = 1) ∧
    (¬ (ft = ".md" ∨ ft = "text/markdown") →
      DefaultDocumentTransformers ft = Slice.nil ∧
        (DefaultDocumentTransformers ft).isNil = true ∧
        (DefaultDocumentTransformers ft).len = 0) := by
  constructor
  · intro h
    simp [DefaultDocumentTransformers, h, Slice.append, Slice.isNil, Slice.len, Slice.toList]
  · intro h
    simp [DefaultDocumentTransformers, h, Slice.isNil, Slice.len, Slice.toList]

/-- Witness of amended C3 at "text/markdown" and at the empty string. -/
theorem DefaultDocumentTransformers_nil_iff_witness :
    ((DefaultDocumentTransformers "text/markdown").isNil = false ∧
        (DefaultDocumentTransformers "text/markdown").len = 1) ∧
    (DefaultDocumentTransformers "" = Slice.nil ∧
        (DefaultDocumentTransformers "").isNil = true ∧
        (DefaultDocumentTransformers "").len = 0) :=
  ⟨(DefaultDocumentTransformers_nil_iff "text/markdown").1 (by decide),
   (DefaultDocumentTransformers_nil_iff "").2 (by decide)⟩

/-- C4: a `GenericTransformer` wrapping the identity function returns, for every
context and every batch (the nil and the empty batch included), the same batch
and the nil error. -/
theorem GenericTransformer_identity (ctx : Context) (docs : Slice Document) :
    GenericTransformer.Transform
        (some { TransformationFunc := some (fun _ ds => (ds, none)) }) ctx docs =
      Outcome.returned (docs, none) := by
  rfl

/-- C5: `DefaultTextSplitter(ft, opts)` never panics; the splitter it returns is
built from `*opts` when `opts` is non-nil and from `NewTextSplitterOpts()` when
`opts` is nil; and the nil call agrees with the call on a pointer to
`NewTextSplitterOpts()`. -/
theorem DefaultTextSplitter_options {Opts : Type} (d : Opts) (ft : String) :
    (∀ o : Opts, ∃ t, DefaultTextSplitter d ft (some o) = Outcome.returned t ∧
      t.splitter.opts = o) ∧
    (∃ t, DefaultTextSplitter d ft none = Outcome.returned t ∧ t.splitter.opts = d) ∧
    DefaultTextSplitter d ft none = DefaultTextSplitter d ft (zPointer d) := by
  refine ⟨fun o => ?_, ?_, ?_⟩
  · rw [DefaultTextSplitter_eq]
    by_cases h : ft = ".md" ∨ ft = "text/markdown"
    · rw [if_pos h]; exact ⟨_, rfl, rfl⟩
    · rw [if_neg h]; exact ⟨_, rfl, rfl⟩
  · rw [DefaultTextSplitter_eq]
    by_cases h : ft = ".md" ∨ ft = "text/markdown"
    · rw [if_pos h]; exact ⟨_, rfl, rfl⟩
    · rw [if_neg h]; exact ⟨_, rfl, rfl⟩
  · rfl

/-- C6: `Transform` on a transformer wrapping `f` returns exactly the pair
`f(ctx, docs)`; it reports an error exactly when `f` does, and the same one. -/
theorem GenericTransformer_surfaces (f : Context → Slice Document → Slice Document × Option Error)
    (ctx : Context) (docs : Slice Document) :
    GenericTransformer.Transform (some { TransformationFunc := some f }) ctx docs =
        Outcome.returned (f ctx docs) ∧
    ∀ e : Error,
      (f ctx docs).2 = some e ↔
        ∃ ds, GenericTransformer.Transform (some { TransformationFunc := some f }) ctx docs =
          Outcome.returned (ds, some e) := by
  have hT : GenericTransformer.Transform (some { TransformationFunc := some f }) ctx docs =
      Outcome.returned (f ctx docs) := rfl
  refine ⟨hT, fun e => ?_⟩
  rw [hT]
  constructor
  · intro h
    exact ⟨(f ctx docs).1, by rw [← h]⟩
  · rintro ⟨ds, h⟩
    injection h with h
    rw [h]

/-- C7: on a provider on which no `Configure()` has succeeded, whatever other
operations ran before, `EmbeddingFunc()` hands out no function and fails with a
configuration error. -/
theorem Provider_EmbeddingFunc_before_Configure (name model : String)
    (config : ProviderConfig) (ops : List ProviderOp)
    (h : (Provider.new name model config).noSuccessfulConfigure ops = true) :
    ((Provider.new name model config).run ops).EmbeddingFunc.2 =
      (none, some (Error.configuration "provider is not configured")) := by
  have hc := Provider.run_configured ops (Provider.new name model config) rfl h
  simp [Provider.EmbeddingFunc, hc]

/-- Witness of C7: a model switch, a failing `Configure()`, an `EmbeddingFunc()`
call and a configuration change that is still invalid, followed by another
failing `Configure()`. -/
theorem Provider_EmbeddingFunc_before_Configure_witness :
    (Provider.new "openai" "m" sampleBadConfig).noSuccessfulConfigure
        [ProviderOp.UseEmbeddingModel "m2", ProviderOp.Configure, ProviderOp.EmbeddingFunc,
         ProviderOp.setConfig { settings := [("apiKey", "")], required := ["apiKey"] },
         ProviderOp.Configure] = true ∧
    ((Provider.new "openai" "m" sampleBadConfig).run
        [ProviderOp.UseEmbeddingModel "m2", ProviderOp.Configure, ProviderOp.EmbeddingFunc,
         ProviderOp.setConfig { settings := [("apiKey", "")], required := ["apiKey"] },
         ProviderOp.Configure]).EmbeddingFunc.2 =
      (none, some (Error.configuration "provider is not configured")) :=
  ⟨by decide,
   Provider_EmbeddingFunc_before_Configure "openai" "m" sampleBadConfig _ (by decide)⟩

/-- C8: `SimilaritySearch` with `numDocuments <= 0` fails with an
input-validation error and makes no backend call. -/
theorem Store_SimilaritySearch_nonpositive (b : Backend) (ctx : Context) (query : String)
    (numDocuments : Int) (collection : String) (whereFilter : List (String × String))
    (whereDocument : List WhereDocument) (h : numDocuments ≤ 0) :
    Store.SimilaritySearch b ctx query numDocuments collection whereFilter whereDocument =
      ((Slice.nil, some (Error.inputValidation "numDocuments must be positive")), []) := by
  simp [Store.SimilaritySearch, h]

/-- Witness of C8 at `k = 0` and at `k = -3`, on a collection that exists. -/
theorem Store_SimilaritySearch_nonpositive_witness :
    Store.SimilaritySearch sampleBackend { cancelled := false } "q" 0 "kb" [] [] =
      ((Slice.nil, some (Error.inputValidation "numDocuments must be positive")), []) ∧
    Store.SimilaritySearch sampleBackend { cancelled := false } "q" (-3) "kb" [] [] =
      ((Slice.nil, some (Error.inputValidation "numDocuments must be positive")), []) :=
  ⟨Store_SimilaritySearch_nonpositive sampleBackend _ "q" 0 "kb" [] [] (by decide),
   Store_SimilaritySearch_nonpositive sampleBackend _ "q" (-3) "kb" [] [] (by decide)⟩

/-- C9: the two default selections agree on what is markdown:
`DefaultTextSplitter(ft, opts)` is the markdown-aware splitter exactly when
`DefaultDocumentTransformers(ft)` is non-empty, which is exactly when it
contains the empty-markdown filter. -/
theorem defaults_agree_on_markdown {Opts : Type} (d : Opts) (ft : String)
    (opts : Option Opts) :
    (DefaultTextSplitter d ft opts =
        Outcome.returned
          (FromLangchain (LcgoSplitter.NewLcgoMarkdownSplitter (effectiveOpts d opts))
            "lcgo_markdown") ↔
      0 < (DefaultDocumentTransformers ft).len) ∧
    ((∃ t, DefaultTextSplitter d ft opts = Outcome.returned t ∧ t.Name = "lcgo_markdown") ↔
      DocumentTransformer.FilterMarkdownDocsNoContent ∈ (DefaultDocumentTransformers ft).toList) := by
  rw [DefaultTextSplitter_eq]
  by_cases h : ft = ".md" ∨ ft = "text/markdown"
  · simp [DefaultDocumentTransformers, h, Slice.append, Slice.len, Slice.toList, FromLangchain]
  · simp [DefaultDocumentTransformers, h, Slice.len, Slice.toList, FromLangchain]

/-- C10: when `gopdf.NewDefaultPDF(reader)` fails with `e`, `DefaultPDFReaderFunc`
returns `(nil, e)` and does not call `Load`; when it succeeds with `r`, the
result is exactly that of `r.Load(ctx)`. -/
theorem DefaultPDFReaderFunc_result {Reader PDF : Type}
    (NewDefaultPDF : Reader → PDF × Option Error)
    (Load : PDF → Context → Slice Document × Option Error)
    (ctx : Context) (reader : Reader) :
    (∀ e : Error, (NewDefaultPDF reader).2 = some e →
      (DefaultPDFReaderFunc NewDefaultPDF Load ctx reader).1 = (Slice.nil, some e) ∧
        Call.Load ∉ (DefaultPDFReaderFunc NewDefaultPDF Load ctx reader).2) ∧
    ((NewDefaultPDF reader).2 = none →
      (DefaultPDFReaderFunc NewDefaultPDF Load ctx reader).1 =
          Load (NewDefaultPDF reader).1 ctx ∧
        Call.Load ∈ (DefaultPDFReaderFunc NewDefaultPDF Load ctx reader).2) := by
  constructor
  · intro e he
    simp [DefaultPDFReaderFunc, he]
  · intro he
    simp [DefaultPDFReaderFunc, he]

/-- Witness of C10 on an unreadable and on a readable input. -/
theorem DefaultPDFReaderFunc_result_witness :
    ((DefaultPDFReaderFunc sampleNewDefaultPDF sampleLoad { cancelled := false } true).1 =
        (Slice.nil, some (Error.other "malformed PDF")) ∧
      Call.Load ∉
        (DefaultPDFReaderFunc sampleNewDefaultPDF sampleLoad { cancelled := false } true).2) ∧
    ((DefaultPDFReaderFunc sampleNewDefaultPDF sampleLoad { cancelled := false } false).1 =
        sampleLoad (sampleNewDefaultPDF false).1 { cancelled := false } ∧
      Call.Load ∈
        (DefaultPDFReaderFunc sampleNewDefaultPDF sampleLoad { cancelled := false } false).2) :=
  ⟨(DefaultPDFReaderFunc_result sampleNewDefaultPDF sampleLoad _ true).1
      (Error.other "malformed PDF") rfl,
   (DefaultPDFReaderFunc_result sampleNewDefaultPDF sampleLoad _ false).2 rfl⟩

end Knowledge
